import Mathlib

/-!
Shallow embedding of the Deckhand orchestration hub core
(`src/deckhand/orchestrator/{events,state,actions}.py`,
`src/deckhand/agents/{base,mock}.py`) and proofs about it.

Conventions:
* Python `dict[str, Any]` values are modelled by the JSON-like type `JVal`;
  a Python dict used as a record (an event envelope, an action payload) is a
  `List (String × JVal)` in insertion order, with unique keys whenever the
  Python side guarantees it (`dict` semantics).
* Timestamps (`time.time()`) are `Nat`, passed explicitly as `now`.
* `async` functions that can raise are `Except`-valued; functions whose only
  effect is emitting events return the list of envelopes handed to the bus.
-/

namespace Deckhand

/-- JSON-like value, the model of Python `Any` payload data. -/
inductive JVal where
  | null : JVal
  | bool : Bool → JVal
  | num : Nat → JVal
  | str : String → JVal
  | dict : List (String × JVal) → JVal
  | arr : List JVal → JVal
deriving Repr

/-- A Python dict used as a record: ordered key/value pairs. -/
abbrev Obj := List (String × JVal)

/-- `d.get(k)`: first value bound to `k`, if any. -/
def oget (o : Obj) (k : String) : Option JVal :=
  (o.find? (fun p => p.1 = k)).map (fun p => p.2)

/-- `k in d`: key membership. -/
def hasKey (o : Obj) (k : String) : Bool :=
  o.any (fun p => p.1 = k)

/-! ## EventBus (`orchestrator/events.py`) -/

/-- A subscriber sink (a WebSocket in the source). `sendOk` records whether
`send_json` succeeds on it during the emit under consideration; delivery
failure is an external fact about the transport, not about the bus. -/
structure Sink where
  id : Nat
  sendOk : Bool
deriving DecidableEq, Repr

/-- The required-fields check of `EventBus.emit` (events.py lines 110-111):
`missing_fields = required_fields - set(event.keys())` is empty. -/
def hasAllRequired (ev : Obj) : Bool :=
  ["type", "source", "payload", "ts", "version"].all (fun f => hasKey ev f)

/-- `EventBus.emit`'s validation (events.py lines 110-116): all five
top-level fields present, and `event.get("source")` is a dict that has
`"kind"` and `"id"` keys.  Returns `some message` on failure. -/
def validateEvent (ev : Obj) : Option String :=
  if hasAllRequired ev then
    match oget ev "source" with
    | some (.dict kvs) =>
        if hasKey kvs "kind" && hasKey kvs "id" then none
        else some "Event source must have kind and id fields"
    | _ => some "Event source must have kind and id fields"
  else
    some "Event missing required fields"

/-- The delivery loop of `emit` (events.py lines 118-123): try each
subscriber in turn; a failing `send_json` puts the sink on the `dead` list
and the loop continues.  Returns `(delivered, dead)`. -/
def deliverLoop : List Sink → List Sink × List Sink
  | [] => ([], [])
  | s :: rest =>
      let (d, dd) := deliverLoop rest
      if s.sendOk then (s :: d, dd) else (d, s :: dd)

/-- `EventBus.emit` (events.py lines 98-125).  On a valid envelope it
delivers to every subscriber, then discards each dead sink from the
subscriber set; it returns `(new subscriber set, sinks that received the
envelope)`.  On an invalid envelope it raises (`.error`) before any
delivery. -/
def emit (subs : List Sink) (ev : Obj) : Except String (List Sink × List Sink) :=
  match validateEvent ev with
  | some msg => .error msg
  | none =>
      let (delivered, dead) := deliverLoop subs
      .ok (subs.filter (fun s => !dead.contains s), delivered)

/-- The source-shape condition `validateEvent` actually enforces
(events.py line 115): `source` is a dict and has `"kind"` and `"id"`
keys — key presence only, values unconstrained. -/
def sourceShapeOk (ev : Obj) : Bool :=
  match oget ev "source" with
  | some (.dict kvs) => hasKey kvs "kind" && hasKey kvs "id"
  | _ => false

/-- The source condition in the spec's words: `source` is a map containing
non-empty `kind` and `id`.  Kept separate from `sourceShapeOk` to compare
the spec's sentence with what the code checks. -/
def specSourceOk (ev : Obj) : Bool :=
  match oget ev "source" with
  | some (.dict kvs) =>
      (match oget kvs "kind" with
       | some (.str s) => s ≠ ""
       | _ => false) &&
      (match oget kvs "id" with
       | some (.str s) => s ≠ ""
       | _ => false)
  | _ => false

/-! ## StateStore (`orchestrator/state.py`) -/

/-- A state entry (the dict built in `set_state`, state.py lines 34-39). -/
structure Entry where
  key : String
  value : JVal
  updated_at : Nat
  expires_at : Option Nat
deriving Repr

/-- The store's key map `self._state`: insertion-ordered, unique keys
(Python `dict` semantics). -/
abbrev StoreMap := List (String × Entry)

/-- An envelope as produced by `build_event` (events.py lines 11-42):
`type`, `source` (`kind`/`id`), `payload`, `ts`, `version`. -/
structure Event where
  type : String
  sourceKind : String
  sourceId : String
  payload : JVal
  ts : Nat
  version : String
deriving Repr

/-- `build_event` with the default version `"1.0"` and `ts = now`. -/
def build_event (event_type : String) (kind id : String) (payload : JVal)
    (now : Nat) : Event :=
  { type := event_type, sourceKind := kind, sourceId := id,
    payload := payload, ts := now, version := "1.0" }

/-- The entry-dict payload of a `state.changed` envelope. -/
def entryPayload (e : Entry) : JVal :=
  .dict [("key", .str e.key), ("value", e.value),
         ("updated_at", .num e.updated_at),
         ("expires_at", match e.expires_at with
                        | some t => .num t
                        | none => .null)]

/-- The `state.cleared` envelope emitted for `key` by the lazy purge
(state.py lines 68-72): source `{kind: "state", id: key}`, payload
`{key}`. -/
def clearedEvent (key : String) (now : Nat) : Event :=
  build_event "state.cleared" "state" key (.dict [("key", .str key)]) now

/-- `self._state[key] = entry`: replace in place if the key exists
(Python dicts keep the original position), append otherwise. -/
def putEntry : StoreMap → String → Entry → StoreMap
  | [], k, e => [(k, e)]
  | (k', e') :: rest, k, e =>
      if k' = k then (k, e) :: rest else (k', e') :: putEntry rest k e

/-- `self._state.get(key)`. -/
def lookupEntry (st : StoreMap) (k : String) : Option Entry :=
  (st.find? (fun p => p.1 = k)).map (fun p => p.2)

/-- `del self._state[key]` guarded by `if key in self._state`
(state.py lines 48-49): remove the binding for `key`. -/
def delKey (st : StoreMap) (k : String) : StoreMap :=
  st.filter (fun p => p.1 ≠ k)

/-- The expiry test of `_purge_expired` (state.py line 60):
`expires_at is not None and expires_at <= now`. -/
def isExpired (e : Entry) (now : Nat) : Bool :=
  match e.expires_at with
  | some t => t ≤ now
  | none => false

/-- `StateStore._purge_expired` (state.py lines 56-76): delete every entry
whose `expires_at` is set and `≤ now`, and for each deleted key schedule a
`state.cleared` envelope.  The Python code collects the expired keys and
then deletes each; with the dict's unique keys that equals this single
pass.  The emission goes through `asyncio.create_task` — fire-and-forget,
dropped when no event loop runs — so the returned list is the envelopes
*scheduled*, best-effort. -/
def purge_expired : StoreMap → Nat → StoreMap × List Event
  | [], _ => ([], [])
  | (k, e) :: rest, now =>
      let (st', evs) := purge_expired rest now
      if isExpired e now then (st', clearedEvent k now :: evs)
      else ((k, e) :: st', evs)

/-- `StateStore.list_state` (state.py lines 17-19): purge, then return all
remaining entries.  Result: `(new map, scheduled envelopes, values)`. -/
def list_state (st : StoreMap) (now : Nat) :
    StoreMap × List Event × List Entry :=
  let (st', evs) := purge_expired st now
  (st', evs, st'.map (fun p => p.2))

/-- `StateStore.get_state` (state.py lines 21-23): purge, then
`self._state.get(key)`. -/
def get_state (st : StoreMap) (now : Nat) (k : String) :
    StoreMap × List Event × Option Entry :=
  let (st', evs) := purge_expired st now
  (st', evs, lookupEntry st' k)

/-- `StateStore.set_state` (state.py lines 25-45): build the entry with
`expires_at = now + ttl` if a ttl is given, store it wholesale, emit a
`state.changed` envelope whose payload is the full new entry and whose
source defaults to `{kind: "state", id: key}`. -/
def set_state (st : StoreMap) (now : Nat) (k : String) (v : JVal)
    (ttl : Option Nat) (source : Option (String × String)) :
    StoreMap × Event :=
  let expires_at := ttl.map (fun t => now + t)
  let entry : Entry :=
    { key := k, value := v, updated_at := now, expires_at := expires_at }
  let src := source.getD ("state", k)
  (putEntry st k entry,
   build_event "state.changed" src.1 src.2 (entryPayload entry) now)

/-- `key in self._state`. -/
def hasEntryKey (st : StoreMap) (k : String) : Bool :=
  st.any (fun p => p.1 = k)

/-- `StateStore.clear_state` (state.py lines 47-54): delete the key if
present (no-op otherwise), then emit a `state.cleared` envelope with
payload `{key}` in either case. -/
def clear_state (st : StoreMap) (now : Nat) (k : String)
    (source : Option (String × String)) : StoreMap × Event :=
  let st' := if hasEntryKey st k then delKey st k else st
  let src := source.getD ("state", k)
  (st', build_event "state.cleared" src.1 src.2 (.dict [("key", .str k)]) now)

/-- The store map after a sequence of reads (`get_state`/`list_state`)
performed at the given times: both reads mutate the map only through
`_purge_expired`, so a read's effect on the map is the purge at its
time. -/
def applyReads (st : StoreMap) (times : List Nat) : StoreMap :=
  times.foldl (fun s t => (purge_expired s t).1) st

/-! ## MockAgent (`agents/base.py`, `agents/mock.py`)

The agent's `_run` coroutine is a cooperatively scheduled task.  We embed
it as a program counter (`Phase`) advanced by an explicit `step`: each
`step` runs the coroutine from one suspension point (`asyncio.sleep`,
`self._input_event.wait()`) to the next.  `asyncio.Task` state is
`TaskRef`: `active ph` is a live task sitting at `ph` (`task.done()` is
false), `finished` is a task that has run to completion or died on an
exception (`task.done()` is true); `cancel` sets `self._task = None`. -/

/-- `AgentStatus` (base.py lines 9-13). -/
inductive AgentStatus where
  | idle | running | awaiting_input | error
deriving DecidableEq, Repr

/-- Suspension points of `MockAgent._run` (mock.py lines 49-62):
`init` = scheduled but not yet run, `sleep1` = first `asyncio.sleep`,
`waitInput` = `self._input_event.wait()`, `sleep2` = second sleep. -/
inductive Phase where
  | init | sleep1 | waitInput | sleep2
deriving DecidableEq, Repr

/-- The `asyncio.Task` held in `self._task`. -/
inductive TaskRef where
  | active : Phase → TaskRef
  | finished : TaskRef
deriving DecidableEq, Repr

/-- Events a `MockAgent` hands to its `on_event` sink, keeping only the
fields the lifecycle determines (type and distinguishing payload). -/
inductive AgentEvent where
  | status_changed : AgentStatus → AgentEvent
  | cancelled : AgentEvent
  | input_received : String → AgentEvent
  | completed : Option String → AgentEvent
  | agent_error : String → AgentEvent
deriving DecidableEq, Repr

/-- `MockAgent` state: `status` (base.py), `task` = `self._task`,
`inputEvt` = `self._input_event.is_set()`, `inputVal` =
`self._input_value`, plus the log of events emitted so far. -/
structure MockAgent where
  status : AgentStatus
  task : Option TaskRef
  inputEvt : Bool
  inputVal : Option String
  events : List AgentEvent
deriving DecidableEq, Repr

/-- A freshly constructed agent (mock.py lines 13-17, base.py line 25). -/
def MockAgent.new : MockAgent :=
  { status := .idle, task := none, inputEvt := false, inputVal := none,
    events := [] }

/-- `AgentBase._set_status` (base.py lines 37-43): set the status and emit
`agent.status_changed`. -/
def setStatus (a : MockAgent) (st : AgentStatus) : MockAgent :=
  { a with status := st, events := a.events ++ [.status_changed st] }

/-- `MockAgent.start` (mock.py lines 19-24): no-op if a task exists and is
not done; otherwise reset the input event and value and spawn `_run` as a
new task. -/
def MockAgent.start (a : MockAgent) : MockAgent :=
  match a.task with
  | some (.active _) => a
  | _ => { a with inputEvt := false, inputVal := none,
                  task := some (.active .init) }

/-- `MockAgent.cancel` (mock.py lines 26-36): no-op if `self._task is
None`; otherwise cancel the task, drop the reference, force `idle`
(emitting `agent.status_changed`) and emit `agent.cancelled`.  A live task
killed here never runs again (its `CancelledError` handler also sets
`idle`, which `cancel` has already done). -/
def MockAgent.cancel (a : MockAgent) : MockAgent :=
  match a.task with
  | none => a
  | some _ =>
      let a' := setStatus { a with task := none } .idle
      { a' with events := a'.events ++ [.cancelled] }

/-- `MockAgent.provide_input` (mock.py lines 38-47): return immediately
unless the status is `awaiting_input`; otherwise record the value, set the
input event and emit `agent.input_received`. -/
def MockAgent.provide_input (a : MockAgent) (text : String) : MockAgent :=
  if a.status ≠ .awaiting_input then a
  else
    let a' := { a with inputVal := some text, inputEvt := true }
    { a' with events := a'.events ++ [.input_received text] }

/-- One scheduler step of `MockAgent._run` (mock.py lines 49-62): advance
the live task from its current suspension point to the next.  At
`waitInput` the task stays blocked until the input event is set.  The
final segment sets `idle`, emits `agent.completed` carrying
`self._input_value`, and the task becomes done. -/
def MockAgent.step (a : MockAgent) : MockAgent :=
  match a.task with
  | some (.active .init) =>
      { setStatus a .running with task := some (.active .sleep1) }
  | some (.active .sleep1) =>
      { setStatus a .awaiting_input with task := some (.active .waitInput) }
  | some (.active .waitInput) =>
      if a.inputEvt then
        { setStatus a .running with task := some (.active .sleep2) }
      else a
  | some (.active .sleep2) =>
      let a' := setStatus a .idle
      { a' with events := a'.events ++ [.completed a.inputVal],
                task := some .finished }
  | _ => a

/-- An unexpected exception raised at the live task's current suspension
point, as caught by `except Exception` (mock.py lines 66-72): set `error`,
emit `agent.error` with the failure message, and the task ends (done).
The handler swallows the exception, so nothing propagates past the task. -/
def MockAgent.stepError (a : MockAgent) (msg : String) : MockAgent :=
  match a.task with
  | some (.active _) =>
      let a' := setStatus a .error
      { a' with events := a'.events ++ [.agent_error msg],
                task := some .finished }
  | _ => a

/-- `self._task` exists and is not done: a run task is actually running. -/
def MockAgent.taskRunning (a : MockAgent) : Bool :=
  match a.task with
  | some (.active _) => true
  | _ => false

/-! ## ActionRegistry (`orchestrator/actions.py`) -/

/-- The error taxonomy surfaced by the registry layer: `KeyError` on an
unregistered name is the `NotFound` kind (main.py maps it to 404),
`ValueError` from a handler is the `Validation` kind (main.py maps it to
400). -/
inductive DhError where
  | notFound : String → DhError
  | validation : String → DhError
deriving DecidableEq, Repr

/-- A call a default handler makes on the orchestrator. -/
inductive OrchCall where
  | startAgent : String → OrchCall
  | cancelAgent : String → OrchCall
  | provideInput : String → String → OrchCall
deriving DecidableEq, Repr

/-- Python truthiness of a payload value (`if not agent_id`). -/
def JVal.truthy : JVal → Bool
  | .null => false
  | .bool b => b
  | .num n => n ≠ 0
  | .str s => s ≠ ""
  | .dict kvs => ¬ kvs.isEmpty
  | .arr xs => ¬ xs.isEmpty

/-- `str(x)` as the default handlers use it on payload fields; container
reprs are not modelled precisely (no claim depends on them). -/
def JVal.toStr : JVal → String
  | .null => "None"
  | .bool true => "True"
  | .bool false => "False"
  | .num n => toString n
  | .str s => s
  | .dict _ => "<dict>"
  | .arr _ => "<list>"

/-- A handler: raw payload in, orchestrator calls out, or a raised error. -/
abbrev ActionHandler := Obj → Except DhError (List OrchCall)

/-- The `agent.start` default handler (actions.py lines 61-65): raise
`ValueError("agent_id is required")` when `payload.get("agent_id")` is
falsy, otherwise call `orchestrator.start_agent(str(agent_id))`. -/
def start_agent_handler : ActionHandler := fun payload =>
  match oget payload "agent_id" with
  | some v =>
      if v.truthy then .ok [.startAgent v.toStr]
      else .error (.validation "agent_id is required")
  | none => .error (.validation "agent_id is required")

/-- The `agent.cancel` default handler (actions.py lines 67-71). -/
def cancel_agent_handler : ActionHandler := fun payload =>
  match oget payload "agent_id" with
  | some v =>
      if v.truthy then .ok [.cancelAgent v.toStr]
      else .error (.validation "agent_id is required")
  | none => .error (.validation "agent_id is required")

/-- The `agent.input` default handler (actions.py lines 73-80): falsy
`agent_id` raises first; then `text is None` (missing) raises; an empty
string for `text` is accepted. -/
def input_agent_handler : ActionHandler := fun payload =>
  match oget payload "agent_id" with
  | some v =>
      if v.truthy then
        match oget payload "text" with
        | some t => .ok [.provideInput v.toStr t.toStr]
        | none => .error (.validation "text is required")
      else .error (.validation "agent_id is required")
  | none => .error (.validation "agent_id is required")

/-- `self._actions` after `_register_defaults` (actions.py lines 82-102),
with only the handlers (metadata is advisory and unused by `run`). -/
def defaultActions : List (String × ActionHandler) :=
  [("agent.start", start_agent_handler),
   ("agent.cancel", cancel_agent_handler),
   ("agent.input", input_agent_handler)]

/-- `self._actions.get(name)`. -/
def findAction (actions : List (String × ActionHandler)) (name : String) :
    Option ActionHandler :=
  (actions.find? (fun p => p.1 = name)).map (fun p => p.2)

/-- `ActionRegistry.run` (actions.py lines 46-50): `KeyError(name)` when
the name is unregistered, otherwise invoke the handler on the raw payload
and let whatever it raises propagate. -/
def runAction (actions : List (String × ActionHandler)) (name : String)
    (payload : Obj) : Except DhError (List OrchCall) :=
  match findAction actions name with
  | none => .error (.notFound name)
  | some h => h payload

/-! ## Concrete fixtures used by witnesses and counterexamples -/

/-- A valid envelope in the shape `build_event` produces. -/
def envOK : Obj :=
  [("type", .str "state.changed"),
   ("source", .dict [("kind", .str "state"), ("id", .str "k")]),
   ("payload", .dict []),
   ("ts", .num 5),
   ("version", .str "1.0")]

/-- An envelope with all five fields whose source has an empty string as
its `kind` value. -/
def envEmptyKind : Obj :=
  [("type", .str "x.y"),
   ("source", .dict [("kind", .str ""), ("id", .str "a")]),
   ("payload", .dict []),
   ("ts", .num 7),
   ("version", .str "1.0")]

/-- An envelope missing the `type` field. -/
def envNoType : Obj :=
  [("source", .dict [("kind", .str "state"), ("id", .str "k")]),
   ("payload", .dict []),
   ("ts", .num 5),
   ("version", .str "1.0")]

/-- A sink whose `send_json` succeeds. -/
def sinkA : Sink := { id := 1, sendOk := true }

/-- A sink whose `send_json` raises. -/
def sinkB : Sink := { id := 2, sendOk := false }

/-- Another sink whose `send_json` succeeds. -/
def sinkC : Sink := { id := 3, sendOk := true }

/-! ## EventBus: delivery and dead-sink reclamation -/

theorem deliverLoop_eq (subs : List Sink) :
    deliverLoop subs =
      (subs.filter (fun s => s.sendOk), subs.filter (fun s => !s.sendOk)) := by
  induction subs with
  | nil => rfl
  | cons s rest ih =>
      simp only [deliverLoop, ih, List.filter_cons]
      cases h : s.sendOk <;> simp [h]

theorem emit_ok_eq (subs : List Sink) (ev : Obj)
    (h : validateEvent ev = none) :
    emit subs ev = .ok (subs.filter (fun s => s.sendOk),
                        subs.filter (fun s => s.sendOk)) := by
  unfold emit
  rw [h]
  simp only [deliverLoop_eq]
  congr 2
  apply List.filter_congr
  intro x hx
  cases hs : x.sendOk <;>
    simp [List.contains, List.elem_eq_mem, List.mem_filter, hx, hs]

/-- C1: on a valid envelope, `emit` attempts delivery to every sink in the
subscriber set (each one ends up delivered-to or dead), does not raise,
delivers exactly one copy to every sink whose send succeeds, delivers
nothing to a failing sink, and the subscriber set afterwards is exactly
the sinks whose send succeeded — precisely the failing ones were
removed. -/
theorem emit_delivers_once_and_prunes_dead (subs : List Sink) (ev : Obj)
    (hv : validateEvent ev = none) (hnd : subs.Nodup) :
    (∀ s ∈ subs, s ∈ (deliverLoop subs).1 ∨ s ∈ (deliverLoop subs).2) ∧
    emit subs ev = .ok (subs.filter (fun s => s.sendOk),
                        subs.filter (fun s => s.sendOk)) ∧
    (∀ s ∈ subs, s.sendOk = true →
        (subs.filter (fun s => s.sendOk)).count s = 1) ∧
    (∀ s ∈ subs, s.sendOk = false →
        s ∉ subs.filter (fun s => s.sendOk)) := by
  refine ⟨?_, emit_ok_eq subs ev hv, ?_, ?_⟩
  · intro s hs
    rw [deliverLoop_eq]
    cases h : s.sendOk
    · right
      simp [List.mem_filter, hs, h]
    · left
      simp [List.mem_filter, hs, h]
  · intro s hs h
    exact List.count_eq_one_of_mem (hnd.filter _)
      (by simp [List.mem_filter, hs, h])
  · intro s _ h
    simp [List.mem_filter, h]

/-- C1 witness: a concrete emit over three sinks, the middle one failing. -/
theorem emit_delivers_once_and_prunes_dead_witness :
    emit [sinkA, sinkB, sinkC] envOK =
      .ok ([sinkA, sinkB, sinkC].filter (fun s => s.sendOk),
           [sinkA, sinkB, sinkC].filter (fun s => s.sendOk)) :=
  (emit_delivers_once_and_prunes_dead [sinkA, sinkB, sinkC] envOK rfl
    (by decide)).2.1

/-- C3 counterexample: an envelope with all five fields whose source has
an empty `kind` value.  The claim requires `emit` to fail with a
validation error and deliver nothing on it; the code checks only that the
`kind` and `id` keys are present, accepts the envelope, and delivers it to
the sink. -/
theorem emit_accepts_empty_kind :
    specSourceOk envEmptyKind = false ∧
    hasAllRequired envEmptyKind = true ∧
    validateEvent envEmptyKind = none ∧
    emit [sinkA] envEmptyKind = .ok ([sinkA], [sinkA]) :=
  ⟨rfl, rfl, rfl, rfl⟩

/-- C3 amended: `emit` raises a validation error (before the delivery
loop, hence delivering to no sink) exactly when the envelope misses one of
the five top-level fields or its source is not a dict having `kind` and
`id` keys; only key presence is checked, so empty `kind` or `id` values
are accepted. -/
theorem emit_validation_exact (ev : Obj) (subs : List Sink) :
    (validateEvent ev = none ↔
      (hasAllRequired ev = true ∧ sourceShapeOk ev = true)) ∧
    (∀ msg, validateEvent ev = some msg → emit subs ev = .error msg) := by
  constructor
  · cases ht : hasAllRequired ev
    · simp [validateEvent, ht]
    · rcases hsrc : oget ev "source" with _ | v
      · simp [validateEvent, sourceShapeOk, ht, hsrc]
      · cases v with
        | dict kvs =>
            cases hb : hasKey kvs "kind" && hasKey kvs "id" <;>
              simp [validateEvent, sourceShapeOk, ht, hsrc, hb]
        | null => simp [validateEvent, sourceShapeOk, ht, hsrc]
        | bool b => simp [validateEvent, sourceShapeOk, ht, hsrc]
        | num n => simp [validateEvent, sourceShapeOk, ht, hsrc]
        | str s => simp [validateEvent, sourceShapeOk, ht, hsrc]
        | arr xs => simp [validateEvent, sourceShapeOk, ht, hsrc]
  · intro msg hmsg
    unfold emit
    rw [hmsg]

/-- C3 amended witness: an envelope missing `type` makes `emit` raise the
missing-fields error. -/
theorem emit_validation_exact_witness :
    emit [sinkA] envNoType = .error "Event missing required fields" :=
  (emit_validation_exact envNoType [sinkA]).2
    "Event missing required fields" rfl

/-! ## StateStore: helper lemmas -/

theorem purge_expired_fst (st : StoreMap) (now : Nat) :
    (purge_expired st now).1 = st.filter (fun p => !isExpired p.2 now) := by
  induction st with
  | nil => rfl
  | cons p rest ih =>
      obtain ⟨k, e⟩ := p
      simp only [purge_expired, List.filter_cons]
      cases h : isExpired e now <;> simp [h, ih]

theorem purge_expired_snd (st : StoreMap) (now : Nat) :
    (purge_expired st now).2 =
      (st.filter (fun p => isExpired p.2 now)).map
        (fun p => clearedEvent p.1 now) := by
  induction st with
  | nil => rfl
  | cons p rest ih =>
      obtain ⟨k, e⟩ := p
      simp only [purge_expired, List.filter_cons]
      cases h : isExpired e now <;> simp [h, ih]

theorem get_state_eq (st : StoreMap) (now : Nat) (k : String) :
    get_state st now k = ((purge_expired st now).1, (purge_expired st now).2,
      lookupEntry (purge_expired st now).1 k) := rfl

theorem list_state_eq (st : StoreMap) (now : Nat) :
    list_state st now = ((purge_expired st now).1, (purge_expired st now).2,
      (purge_expired st now).1.map (fun p => p.2)) := rfl

theorem lookupEntry_cons (k' : String) (e' : Entry) (rest : StoreMap)
    (k : String) :
    lookupEntry ((k', e') :: rest) k =
      if k' = k then some e' else lookupEntry rest k := by
  by_cases h : k' = k <;> simp [lookupEntry, List.find?_cons, h]

theorem putEntry_lookup (st : StoreMap) (k : String) (e : Entry) :
    lookupEntry (putEntry st k e) k = some e := by
  induction st with
  | nil => simp [putEntry, lookupEntry]
  | cons p rest ih =>
      obtain ⟨k', e'⟩ := p
      by_cases h : k' = k
      · simp [putEntry, h, lookupEntry_cons]
      · simp [putEntry, h, lookupEntry_cons, ih]

theorem putEntry_mem (st : StoreMap) (k : String) (e : Entry) :
    (k, e) ∈ putEntry st k e := by
  induction st with
  | nil => simp [putEntry]
  | cons p rest ih =>
      obtain ⟨k', e'⟩ := p
      by_cases h : k' = k <;> simp [putEntry, h, ih]

theorem putEntry_keys_subset (st : StoreMap) (k : String) (e : Entry) :
    ∀ x ∈ (putEntry st k e).map Prod.fst, x ∈ st.map Prod.fst ∨ x = k := by
  induction st with
  | nil => simp [putEntry]
  | cons p rest ih =>
      obtain ⟨k', e'⟩ := p
      by_cases h : k' = k
      · subst h
        intro x hx
        exact Or.inl (by simpa [putEntry] using hx)
      · intro x hx
        simp only [putEntry, if_neg h, List.map_cons, List.mem_cons] at hx
        rcases hx with hx | hx
        · exact Or.inl (by simp [hx])
        · rcases ih x hx with h1 | h1
          · exact Or.inl (by simp [h1])
          · exact Or.inr h1

theorem putEntry_keys_nodup (st : StoreMap) (k : String) (e : Entry)
    (hnd : (st.map Prod.fst).Nodup) :
    ((putEntry st k e).map Prod.fst).Nodup := by
  induction st with
  | nil => simp [putEntry]
  | cons p rest ih =>
      obtain ⟨k', e'⟩ := p
      simp only [List.map_cons, List.nodup_cons] at hnd
      by_cases h : k' = k
      · subst h
        simpa [putEntry, List.nodup_cons] using hnd
      · simp only [putEntry, if_neg h, List.map_cons, List.nodup_cons]
        refine ⟨?_, ih hnd.2⟩
        intro hmem
        rcases putEntry_keys_subset rest k e k' hmem with h1 | h1
        · exact hnd.1 h1
        · exact h h1

theorem lookupEntry_eq_none (st : StoreMap) (k : String)
    (h : k ∉ st.map Prod.fst) : lookupEntry st k = none := by
  induction st with
  | nil => rfl
  | cons p rest ih =>
      obtain ⟨k', e'⟩ := p
      simp only [List.map_cons, List.mem_cons] at h
      push_neg at h
      rw [lookupEntry_cons, if_neg (fun hh => h.1 hh.symm)]
      exact ih h.2

theorem lookup_filter_live (st : StoreMap) (k : String) (e : Entry)
    (now : Nat) (h : lookupEntry st k = some e)
    (hl : isExpired e now = false) :
    lookupEntry (st.filter (fun p => !isExpired p.2 now)) k = some e := by
  induction st with
  | nil => simp [lookupEntry] at h
  | cons p rest ih =>
      obtain ⟨k', e'⟩ := p
      by_cases hk : k' = k
      · rw [lookupEntry_cons, if_pos hk] at h
        injection h with h
        subst h
        rw [List.filter_cons]
        simp only [hl, Bool.not_false, if_pos]
        rw [lookupEntry_cons, if_pos hk]
      · rw [lookupEntry_cons, if_neg hk] at h
        rw [List.filter_cons]
        cases hexp : isExpired e' now
        · simpa [lookupEntry_cons, hk] using ih h
        · simpa using ih h

theorem lookup_filter_expired (st : StoreMap) (k : String) (e : Entry)
    (now : Nat) (hnd : (st.map Prod.fst).Nodup)
    (h : lookupEntry st k = some e) (he : isExpired e now = true) :
    lookupEntry (st.filter (fun p => !isExpired p.2 now)) k = none := by
  induction st with
  | nil => rfl
  | cons p rest ih =>
      obtain ⟨k', e'⟩ := p
      simp only [List.map_cons, List.nodup_cons] at hnd
      by_cases hk : k' = k
      · rw [lookupEntry_cons, if_pos hk] at h
        injection h with h
        subst h
        rw [List.filter_cons]
        simp only [he, Bool.not_true, if_neg]
        apply lookupEntry_eq_none
        subst hk
        intro hmem
        apply hnd.1
        obtain ⟨q, hq, hq2⟩ := List.mem_map.mp hmem
        exact hq2 ▸ List.mem_map.mpr ⟨q, (List.mem_filter.mp hq).1, rfl⟩
      · rw [lookupEntry_cons, if_neg hk] at h
        rw [List.filter_cons]
        cases hexp : isExpired e' now
        · simpa [lookupEntry_cons, hk] using ih hnd.2 h
        · simpa using ih hnd.2 h

theorem applyReads_preserves_live (times : List Nat) (st : StoreMap)
    (p : String × Entry) (hp : p ∈ st)
    (hlive : ∀ t ∈ times, isExpired p.2 t = false) :
    p ∈ applyReads st times := by
  induction times generalizing st with
  | nil => simpa [applyReads] using hp
  | cons t ts ih =>
      have hp' : p ∈ (purge_expired st t).1 := by
        rw [purge_expired_fst]
        exact List.mem_filter.mpr
          ⟨hp, by simp [hlive t (List.mem_cons_self _ _)]⟩
      have := ih ((purge_expired st t).1) hp'
        (fun t' ht' => hlive t' (List.mem_cons_of_mem _ ht'))
      simpa [applyReads] using this

/-! ## StateStore: fixtures -/

/-- A never-expiring entry. -/
def entLive : Entry :=
  { key := "b", value := .num 2, updated_at := 0, expires_at := none }

/-- An entry that expires at time 5. -/
def entExpired : Entry :=
  { key := "a", value := .num 1, updated_at := 0, expires_at := some 5 }

/-- A concrete store holding one expiring and one never-expiring entry. -/
def stW : StoreMap := [("a", entExpired), ("b", entLive)]

/-! ## StateStore: claim theorems -/

/-- C2: `set_state` with no TTL followed by `get_state` with no
intervening operation returns an entry whose value field is the value
written; `set_state` with TTL `t` followed by `get_state` strictly after
the computed `expires_at = now + t` returns the absent indicator even
though nothing else touched the store, and that read's purge emits the
`state.cleared` envelope for the key. -/
theorem set_state_get_state_roundtrip (st : StoreMap) (now now2 : Nat)
    (k : String) (v : JVal) (t : Nat)
    (hnd : (st.map Prod.fst).Nodup) (hlt : now + t < now2) :
    (∃ e, (get_state (set_state st now k v none none).1 now k).2.2 = some e ∧
       e.value = v) ∧
    (get_state (set_state st now k v (some t) none).1 now2 k).2.2 = none ∧
    clearedEvent k now2 ∈
      (get_state (set_state st now k v (some t) none).1 now2 k).2.1 := by
  refine ⟨⟨{ key := k, value := v, updated_at := now, expires_at := none },
           ?_, rfl⟩, ?_, ?_⟩
  · show lookupEntry (purge_expired (putEntry st k
        { key := k, value := v, updated_at := now, expires_at := none })
        now).1 k =
      some { key := k, value := v, updated_at := now, expires_at := none }
    rw [purge_expired_fst]
    exact lookup_filter_live _ _ _ _ (putEntry_lookup st k _) rfl
  · show lookupEntry (purge_expired (putEntry st k
        { key := k, value := v, updated_at := now,
          expires_at := some (now + t) }) now2).1 k = none
    rw [purge_expired_fst]
    apply lookup_filter_expired _ _
      { key := k, value := v, updated_at := now, expires_at := some (now + t) }
      _ (putEntry_keys_nodup st k _ hnd) (putEntry_lookup st k _)
    simp only [isExpired, decide_eq_true_eq]
    omega
  · show clearedEvent k now2 ∈ (purge_expired (putEntry st k
        { key := k, value := v, updated_at := now,
          expires_at := some (now + t) }) now2).2
    rw [purge_expired_snd]
    apply List.mem_map.mpr
    refine ⟨(k, { key := k, value := v, updated_at := now,
                  expires_at := some (now + t) }), ?_, rfl⟩
    apply List.mem_filter.mpr
    refine ⟨putEntry_mem st k _, ?_⟩
    simp only [isExpired, decide_eq_true_eq]
    omega

/-- C2 witness at the empty store: write, then read after expiry. -/
theorem set_state_get_state_roundtrip_witness :
    (∃ e, (get_state (set_state [] 0 "a" (.str "x") none none).1 0 "a").2.2 =
        some e ∧ e.value = .str "x") ∧
    (get_state (set_state [] 0 "a" (.str "x") (some 1) none).1 2 "a").2.2 =
      none ∧
    clearedEvent "a" 2 ∈
      (get_state (set_state [] 0 "a" (.str "x") (some 1) none).1 2 "a").2.1 :=
  set_state_get_state_roundtrip [] 0 2 "a" (.str "x") 1 (by simp) (by omega)

/-- C5: every read purges first: after `get_state`/`list_state` the map
keeps exactly the entries not expired at `now`; for each removed key the
purge schedules — best-effort, through a fire-and-forget task that is
silently dropped when no event loop is running — one `state.cleared`
envelope with source `{kind: "state", id: key}` and payload `{key}`; and
the read's own result contains no expired entry. -/
theorem reads_purge_and_emit_cleared (st : StoreMap) (now : Nat)
    (k : String) :
    (list_state st now).1 = st.filter (fun p => !isExpired p.2 now) ∧
    (get_state st now k).1 = st.filter (fun p => !isExpired p.2 now) ∧
    (list_state st now).2.1 =
      (st.filter (fun p => isExpired p.2 now)).map
        (fun p => clearedEvent p.1 now) ∧
    (get_state st now k).2.1 =
      (st.filter (fun p => isExpired p.2 now)).map
        (fun p => clearedEvent p.1 now) ∧
    (∀ key ts, (clearedEvent key ts).type = "state.cleared" ∧
        (clearedEvent key ts).sourceKind = "state" ∧
        (clearedEvent key ts).sourceId = key ∧
        (clearedEvent key ts).payload = .dict [("key", .str key)]) ∧
    (∀ e ∈ (list_state st now).2.2, isExpired e now = false) ∧
    (∀ e, (get_state st now k).2.2 = some e → isExpired e now = false) := by
  refine ⟨purge_expired_fst st now, purge_expired_fst st now,
          purge_expired_snd st now, purge_expired_snd st now,
          fun key ts => ⟨rfl, rfl, rfl, rfl⟩, ?_, ?_⟩
  · intro e he
    have he' : e ∈ ((purge_expired st now).1).map (fun p => p.2) := he
    rw [purge_expired_fst] at he'
    obtain ⟨p, hp, rfl⟩ := List.mem_map.mp he'
    have := (List.mem_filter.mp hp).2
    simpa using this
  · intro e he
    have he' : lookupEntry (purge_expired st now).1 k = some e := he
    rw [purge_expired_fst] at he'
    unfold lookupEntry at he'
    obtain ⟨p, hfind, hsnd⟩ := Option.map_eq_some'.mp he'
    have hmem := List.mem_of_find?_eq_some hfind
    have hexp := (List.mem_filter.mp hmem).2
    rw [← hsnd]
    simpa using hexp

/-- C5 witness at a concrete store read at time 10. -/
theorem reads_purge_and_emit_cleared_witness :
    (list_state stW 10).1 = stW.filter (fun p => !isExpired p.2 10) ∧
    isExpired entLive 10 = false :=
  ⟨(reads_purge_and_emit_cleared stW 10 "a").1,
   (reads_purge_and_emit_cleared stW 10 "b").2.2.2.2.2.2 entLive rfl⟩

/-- C8: `clear_state` with the default source leaves the store without
the key, returns exactly one `state.cleared` envelope whose payload is
`{key: k}`, and emits it even when the key was absent — the removal then
being a no-op. -/
theorem clear_state_removes_and_emits (st : StoreMap) (now : Nat)
    (k : String) :
    (∀ p ∈ (clear_state st now k none).1, p.1 ≠ k) ∧
    (clear_state st now k none).2 =
      build_event "state.cleared" "state" k (.dict [("key", .str k)]) now ∧
    (hasEntryKey st k = false → (clear_state st now k none).1 = st) := by
  refine ⟨?_, rfl, ?_⟩
  · intro p hp
    have hp' : p ∈ (if hasEntryKey st k then delKey st k else st) := hp
    cases h : hasEntryKey st k
    · simp only [h, Bool.false_eq_true, if_false] at hp'
      intro hpk
      have hk : hasEntryKey st k = true :=
        List.any_eq_true.mpr ⟨p, hp', by simp [hpk]⟩
      rw [h] at hk
      exact Bool.false_ne_true hk
    · simp only [h, if_true] at hp'
      unfold delKey at hp'
      have := (List.mem_filter.mp hp').2
      simpa using this
  · intro h
    show (if hasEntryKey st k then delKey st k else st) = st
    rw [h]
    simp

/-- C8 witness: clearing an absent key on a concrete store. -/
theorem clear_state_removes_and_emits_witness :
    (clear_state stW 0 "z" none).1 = stW ∧
    (clear_state stW 0 "z" none).2 =
      build_event "state.cleared" "state" "z" (.dict [("key", .str "z")]) 0 :=
  ⟨(clear_state_removes_and_emits stW 0 "z").2.2 rfl,
   (clear_state_removes_and_emits stW 0 "z").2.1⟩

/-- C10: reads are frame-preserving on live entries: a read at `now`
leaves the same map for `get_state` and `list_state`; an entry of the map
survives a read exactly when its `expires_at` is unset or strictly in the
future; and an entry live at every time of a sequence of reads survives
the whole sequence with all its fields unchanged. -/
theorem reads_frame_preserving (st : StoreMap) (now : Nat) (k : String)
    (times : List Nat) :
    (get_state st now k).1 = (purge_expired st now).1 ∧
    (list_state st now).1 = (purge_expired st now).1 ∧
    (∀ p ∈ st, (p ∈ (purge_expired st now).1 ↔ isExpired p.2 now = false)) ∧
    (∀ p ∈ st, (∀ t ∈ times, isExpired p.2 t = false) →
        p ∈ applyReads st times) := by
  refine ⟨rfl, rfl, ?_,
          fun p hp hl => applyReads_preserves_live times st p hp hl⟩
  intro p hp
  rw [purge_expired_fst]
  constructor
  · intro hmem
    have := (List.mem_filter.mp hmem).2
    simpa using this
  · intro hl
    exact List.mem_filter.mpr ⟨hp, by simp [hl]⟩

/-- C10 witness: the never-expiring entry survives three reads; the
expiring entry is gone after a read at time 10. -/
theorem reads_frame_preserving_witness :
    ("b", entLive) ∈ applyReads stW [1, 2, 3] ∧
    (("a", entExpired) ∈ (purge_expired stW 10).1 ↔
      isExpired entExpired 10 = false) :=
  ⟨(reads_frame_preserving stW 0 "b" [1, 2, 3]).2.2.2 ("b", entLive)
     (by simp [stW]) (fun t _ => rfl),
   (reads_frame_preserving stW 10 "a" []).2.2.1 ("a", entExpired)
     (by simp [stW])⟩

/-! ## MockAgent: fixtures and claim theorems -/

/-- A fresh agent started and stepped once: `running`, task at `sleep1`. -/
def agentRunning : MockAgent := MockAgent.new.start.step

/-- Started and stepped twice: `awaiting_input`, blocked at the input
wait. -/
def agentAwaiting : MockAgent := MockAgent.new.start.step.step

/-- Run to completion: input provided while awaiting, then stepped to the
end.  The task is done but `self._task` still holds it. -/
def agentDone : MockAgent := ((agentAwaiting.provide_input "hi").step).step

/-- C4 counterexample: after a completed run the agent holds a done task
(`self._task` non-None, `done()` true) — no task is running — yet
`cancel()` is not a no-op: it forces `idle` again and emits
`agent.cancelled`, where the claim requires no status change and no
event. -/
theorem cancel_after_completion_not_noop :
    agentDone.taskRunning = false ∧
    agentDone.task = some .finished ∧
    agentDone.status = .idle ∧
    agentDone.cancel.events =
      agentDone.events ++ [.status_changed .idle, .cancelled] ∧
    agentDone.cancel.events ≠ agentDone.events := by
  refine ⟨rfl, rfl, rfl, rfl, ?_⟩
  decide

/-- C4 amended: `cancel()` is a no-op (no status change, no event) only
when the agent holds no task reference (never started, or already
cancelled); whenever a task reference exists — running or already done —
`cancel()` drops it, forces `idle`, and emits `agent.status_changed`
followed by `agent.cancelled`; in particular an agent cancelled while
`awaiting_input` ends `idle`, never stuck. -/
theorem cancel_forces_idle (a : MockAgent) :
    (a.task = none → a.cancel = a) ∧
    (a.task ≠ none →
      a.cancel.status = .idle ∧ a.cancel.task = none ∧
      a.cancel.events =
        a.events ++ [.status_changed .idle, .cancelled]) := by
  constructor
  · intro h
    simp [MockAgent.cancel, h]
  · intro h
    match ht : a.task with
    | none => exact absurd ht h
    | some tr => simp [MockAgent.cancel, ht, setStatus]

/-- C4 amended witness: a never-started agent is untouched; cancelling the
concrete awaiting-input agent leaves it idle. -/
theorem cancel_forces_idle_witness :
    MockAgent.new.cancel = MockAgent.new ∧
    agentAwaiting.cancel.status = .idle :=
  ⟨(cancel_forces_idle MockAgent.new).1 rfl,
   ((cancel_forces_idle agentAwaiting).2 (by decide)).1⟩

/-- C6: `provide_input` is a strict no-op (same state, no event) unless
the status is `awaiting_input`; while `awaiting_input` and blocked at the
input wait it records the text, emits `agent.input_received`, and the
resumed run goes `running → idle` with the `agent.completed` event
carrying exactly that text. -/
theorem provide_input_gating (a : MockAgent) (text : String) :
    (a.status ≠ .awaiting_input → a.provide_input text = a) ∧
    (a.status = .awaiting_input → a.task = some (.active .waitInput) →
      ((a.provide_input text).step).step.status = .idle ∧
      ((a.provide_input text).step).step.events =
        a.events ++ [.input_received text, .status_changed .running,
                     .status_changed .idle, .completed (some text)]) := by
  constructor
  · intro h
    simp [MockAgent.provide_input, h]
  · intro hs ht
    simp [MockAgent.provide_input, MockAgent.step, hs, ht, setStatus]

/-- C6 witness: a no-op on the running agent; a full resume on the
awaiting agent carrying the exact text. -/
theorem provide_input_gating_witness :
    agentRunning.provide_input "x" = agentRunning ∧
    ((agentAwaiting.provide_input "go").step).step.status = .idle ∧
    ((agentAwaiting.provide_input "go").step).step.events =
      agentAwaiting.events ++
        [.input_received "go", .status_changed .running,
         .status_changed .idle, .completed (some "go")] :=
  ⟨(provide_input_gating agentRunning "x").1 (by decide),
   ((provide_input_gating agentAwaiting "go").2 rfl rfl).1,
   ((provide_input_gating agentAwaiting "go").2 rfl rfl).2⟩

/-- C9: an unexpected failure at any live suspension point of the run
sequence is caught inside the task (`stepError` returns a plain agent
state, nothing propagates): the agent transitions to `error` and emits
`agent.error` carrying the failure message, and `error` is not terminal —
`start()` spawns a fresh run task which enters `running` on its first
step. -/
theorem run_error_and_recovery (a : MockAgent) (msg : String)
    (h : a.taskRunning = true) :
    (a.stepError msg).status = .error ∧
    (a.stepError msg).task = some .finished ∧
    (a.stepError msg).events =
      a.events ++ [.status_changed .error, .agent_error msg] ∧
    ((a.stepError msg).start).task = some (.active .init) ∧
    (((a.stepError msg).start).step).status = .running := by
  match ht : a.task with
  | some (.active ph) =>
      simp [MockAgent.stepError, MockAgent.start, MockAgent.step, ht,
            setStatus]
  | some .finished => simp [MockAgent.taskRunning, ht] at h
  | none => simp [MockAgent.taskRunning, ht] at h

/-- C9 witness: a failure in the concrete running agent, then restart. -/
theorem run_error_and_recovery_witness :
    (agentRunning.stepError "boom").status = .error ∧
    (agentRunning.stepError "boom").task = some .finished ∧
    (agentRunning.stepError "boom").events =
      agentRunning.events ++ [.status_changed .error, .agent_error "boom"] ∧
    ((agentRunning.stepError "boom").start).task = some (.active .init) ∧
    (((agentRunning.stepError "boom").start).step).status = .running :=
  run_error_and_recovery agentRunning "boom" (by decide)

/-! ## ActionRegistry: claim theorem -/

/-- C7: `ActionRegistry.run` fails with the NotFound kind on every name
with no registered handler, and otherwise invokes the registered handler
on the raw payload, propagating whatever error it raises; on the default
registry, `run("no.such.action", {})` is NotFound, and
`run("agent.start", {})` with `agent_id` missing raises the Validation
kind from the handler's own fail-fast check — the error result carries no
orchestrator call, so none was made. -/
theorem runAction_routes_and_propagates
    (actions : List (String × ActionHandler)) (name : String)
    (h : ActionHandler) (p : Obj) :
    (findAction actions name = none →
      runAction actions name p = .error (.notFound name)) ∧
    (findAction actions name = some h → runAction actions name p = h p) ∧
    runAction defaultActions "no.such.action" [] =
      .error (.notFound "no.such.action") ∧
    runAction defaultActions "agent.start" [] =
      .error (.validation "agent_id is required") := by
  refine ⟨?_, ?_, rfl, rfl⟩
  · intro hn
    unfold runAction
    rw [hn]
  · intro hs
    unfold runAction
    rw [hs]

/-- C7 witness: a miss on an unregistered name, and a handler hit carrying
the raw payload through to the orchestrator call. -/
theorem runAction_routes_witness :
    runAction defaultActions "nope" [] = .error (.notFound "nope") ∧
    runAction defaultActions "agent.cancel" [("agent_id", .str "a1")] =
      .ok [.cancelAgent "a1"] :=
  ⟨(runAction_routes_and_propagates defaultActions "nope"
      start_agent_handler []).1 rfl,
   by
     rw [(runAction_routes_and_propagates defaultActions "agent.cancel"
       cancel_agent_handler [("agent_id", .str "a1")]).2.1 rfl]
     rfl⟩

end Deckhand
